import Mathlib

/-!
Shallow embedding of the mine GPS tracking core of this repository.

The embedded code lives in the React hook `useTracking` (src/unnamed/part_000):
ingestion of live geolocation fixes (`handlePosition`), geofence transition
detection, signal-loss alerting, bounded track history, and the playback
state machine (`startPlayback`, `stopPlayback`, `setPlaybackIndex`, the
playback interval tick), together with the simulator progress bookkeeping of
`useSupabaseTracking` (src/unnamed/part_001: `startSimulation` progress
initialisation and `stopSimulation`).

Modelling conventions:
- JavaScript numbers are modelled as rationals (`Rat`); values produced by
  `Math.round` are integers (`Int`).
- The Haversine `getDistance` is transcendental, so the model is parametrised
  by an arbitrary distance function `DistFn`; every theorem quantifies over it.
- `Math.sin(Date.now() / 10000)` in `calculateDepth` is time dependent; the
  sine value is passed in as the parameter `sv` (a real run has -1 <= sv <= 1).
- `Date.now()` based identifiers and timestamps are passed in as `now`.
- Mutation via `unshift` loops is rendered as pure list construction with the
  same resulting contents and order.
- Fields of the React state that no claim touches (the `device` record, the
  string messages and timestamps inside alerts) are projected away.
-/

/-- JavaScript `Math.round`: round half toward positive infinity. -/
def jsRound (q : ℚ) : Int := Rat.floor (q + 1/2)

/-- Abstract stand-in for the Haversine `getDistance(lat1, lon1, lat2, lon2)`
of part_000 lines 467-479 (transcendental, hence kept as a parameter). -/
def DistFn : Type := ℚ → ℚ → ℚ → ℚ → ℚ

/-- A GPS position as constructed by `handlePosition` (part_000 lines 178-191). -/
structure GPSPosition where
  id : Nat
  latitude : ℚ
  longitude : ℚ
  timestamp : Nat
  speed : ℚ
  heading : ℚ
  altitude : ℚ
  accuracy : ℚ
  battery : ℚ
  depth : Int
  zone : String
  signalStrength : Int
  deriving DecidableEq

/-- A circular geofence (src/gps-tracker--main/src/types and part_000). -/
structure Geofence where
  id : String
  name : String
  centerLat : ℚ
  centerLng : ℚ
  radius : ℚ
  isActive : Bool
  alertOnEnter : Bool
  alertOnExit : Bool
  zoneType : String
  deriving DecidableEq

/-- A mine zone; only the primary reference coordinate `coordinates[0]`
is ever read (by `determineZone`), so only it is kept. -/
structure MineZone where
  id : String
  name : String
  firstLat : ℚ
  firstLng : ℚ
  deriving DecidableEq

/-- Alert types generated by the tracking hook. -/
inductive AlertType
  | geofence_enter
  | geofence_exit
  | signal_lost
  | emergency
  | breakdown
  deriving DecidableEq

/-- Alert priorities. -/
inductive AlertPriority
  | low
  | medium
  | high
  | critical
  deriving DecidableEq

/-- An alert record, projected to the fields the claims inspect. -/
structure Alert where
  type : AlertType
  priority : AlertPriority
  geofenceId : Option String
  deriving DecidableEq

/-- An incoming browser geolocation fix (`GeolocationPosition.coords`
plus timestamp); `speed`, `heading`, `altitude` are nullable. -/
structure GeoFix where
  latitude : ℚ
  longitude : ℚ
  accuracy : ℚ
  speed : Option ℚ
  heading : Option ℚ
  altitude : Option ℚ
  timestamp : Nat
  deriving DecidableEq

/-- The `TrackingState` managed by `useTracking` (part_000 lines 94-105),
with the module level ref `initialPositionSet` (line 111) folded in. -/
structure TrackingState where
  currentPosition : Option GPSPosition
  trackHistory : List GPSPosition
  geofences : List Geofence
  alerts : List Alert
  isPlaying : Bool
  playbackIndex : Int
  playbackSpeed : ℚ
  mineZones : List MineZone
  isUnderground : Bool
  initialPositionSet : Bool
  deriving DecidableEq

/-- The initial React state (part_000 lines 94-105, 111). -/
def initialTrackingState : TrackingState :=
  { currentPosition := none
    trackHistory := []
    geofences := []
    alerts := []
    isPlaying := false
    playbackIndex := -1
    playbackSpeed := 1
    mineZones := []
    isUnderground := false
    initialPositionSet := false }

/-- JavaScript array indexing `l[i]` with an arbitrary integer index:
`undefined` (here `none`) outside `[0, length)`. -/
def listGetInt {α : Type} (l : List α) (i : Int) : Option α :=
  if 0 ≤ i then l.get? i.toNat else none

/-- The function `createMineZones(lat, lng)` (part_000 lines 15-58), keeping each zone
primary coordinate `coordinates[0]`. -/
def createMineZones (lat lng : ℚ) : List MineZone :=
  [ { id := "zone-main-tunnel", name := "Main Tunnel",
      firstLat := lat - 1/1000, firstLng := lng - 1/500 }
  , { id := "zone-extraction", name := "Extraction Zone A",
      firstLat := lat - 1/2000, firstLng := lng - 1/1000 }
  , { id := "zone-shaft", name := "Main Shaft",
      firstLat := lat, firstLng := lng }
  , { id := "zone-emergency", name := "Emergency Exit",
      firstLat := lat + 1/500, firstLng := lng + 1/1000 } ]

/-- The function `createMineGeofences(lat, lng)` (part_000 lines 60-91). -/
def createMineGeofences (lat lng : ℚ) : List Geofence :=
  [ { id := "geofence-safe-zone", name := "Safe Zone - Surface",
      centerLat := lat, centerLng := lng, radius := 200,
      isActive := true, alertOnEnter := false, alertOnExit := true,
      zoneType := "safe" }
  , { id := "geofence-hazard", name := "Hazard Zone - Blasting Area",
      centerLat := lat - 1/1000, centerLng := lng - 1/1000, radius := 100,
      isActive := true, alertOnEnter := true, alertOnExit := false,
      zoneType := "hazard" }
  , { id := "geofence-emergency", name := "Emergency Rally Point",
      centerLat := lat + 1/500, centerLng := lng + 1/1000, radius := 50,
      isActive := true, alertOnEnter := false, alertOnExit := false,
      zoneType := "emergency_point" } ]

/-- The function `calculateDepth(accuracy, history)` (part_000 lines 114-123). The
history argument is unused by the source body; `sv` stands for the value
of `Math.sin(Date.now() / 10000)`. -/
def calculateDepth (sv : ℚ) (accuracy : ℚ) : Int :=
  if 50 < accuracy then
    let baseDepth := min (accuracy / 2) 200
    let variation := sv * 20
    jsRound (baseDepth + variation)
  else 0

/-- The function `calculateSignalStrength(accuracy, depth)` (part_000 lines 126-131). -/
def calculateSignalStrength (accuracy : ℚ) (depth : Int) : Int :=
  let baseSignal := max 0 (100 - accuracy)
  let depthPenalty := (depth : ℚ) * (3/10)
  max 5 (jsRound (baseSignal - depthPenalty))

/-- The function `determineZone(lat, lng, zones)` (part_000 lines 134-144): first zone
whose primary coordinate is within 100 meters, else "Surface". -/
def determineZone (dist : DistFn) (lat lng : ℚ) (zones : List MineZone) : String :=
  match zones.find? (fun z => decide (dist lat lng z.firstLat z.firstLng < 100)) with
  | some z => z.name
  | none => "Surface"

/-- The `newPosition` object built by `handlePosition` (part_000 lines 178-191).
`speed ? speed * 3.6 : 0` and `heading || 0` / `altitude || 0` coincide with
defaulting the nullable field to 0 (the 0 case maps to 0 either way). -/
def mkNewPosition (dist : DistFn) (sv : ℚ) (now : Nat) (f : GeoFix)
    (zones : List MineZone) : GPSPosition :=
  let depth := calculateDepth sv f.accuracy
  { id := now
    latitude := f.latitude
    longitude := f.longitude
    timestamp := f.timestamp
    speed := f.speed.getD 0 * (18/5)
    heading := f.heading.getD 0
    altitude := f.altitude.getD 0
    accuracy := f.accuracy
    battery := 85
    depth := depth
    zone := determineZone dist f.latitude f.longitude zones
    signalStrength := calculateSignalStrength f.accuracy depth }

/-- History append `[...prev.trackHistory.slice(-199), newPosition]`
(part_000 line 193; the identical update also appears in the realtime
insert handler, part_001 lines 191 and 198). -/
def appendHistory {α : Type} (h : List α) (p : α) : List α :=
  h.drop (h.length - 199) ++ [p]

/-- Alerts added for one geofence by the forEach body of `handlePosition`
(part_000 lines 199-241): nothing without a previous position or for an
inactive fence; an exit alert on inside to outside if `alertOnExit`; an
enter alert on outside to inside if `alertOnEnter`. Boundary
(distance = radius) counts as inside. -/
def fenceAlerts (dist : DistFn) (fence : Geofence) (lastPos : Option GPSPosition)
    (newPos : GPSPosition) : List Alert :=
  match lastPos with
  | none => []
  | some lp =>
    if fence.isActive then
      let currentDistance := dist fence.centerLat fence.centerLng newPos.latitude newPos.longitude
      let wasInside : Bool := decide (dist fence.centerLat fence.centerLng lp.latitude lp.longitude ≤ fence.radius)
      let isInside : Bool := decide (currentDistance ≤ fence.radius)
      (if wasInside && !isInside && fence.alertOnExit then
        [{ type := AlertType.geofence_exit
           priority := if fence.zoneType = "safe" then AlertPriority.high else AlertPriority.medium
           geofenceId := some fence.id }]
       else []) ++
      (if !wasInside && isInside && fence.alertOnEnter then
        [{ type := AlertType.geofence_enter
           priority := if fence.zoneType = "hazard" then AlertPriority.critical else AlertPriority.low
           geofenceId := some fence.id }]
       else [])
    else []

/-- All geofence alerts of one ingestion step. Each `unshift` prepends, so
alerts of later fences end up in front; the foldl reproduces that order. -/
def geofenceEmitted (dist : DistFn) (fences : List Geofence)
    (lastPos : Option GPSPosition) (newPos : GPSPosition) : List Alert :=
  fences.foldl (fun acc fence => fenceAlerts dist fence lastPos newPos ++ acc) []

/-- The signal loss guard of part_000 line 244:
`signalStrength < 20 && prev.currentPosition?.signalStrength &&
prev.currentPosition.signalStrength >= 20`, with JavaScript truthiness of
the middle conjunct (0 is falsy) kept. -/
def signalLostCond (lastPos : Option GPSPosition) (signalStrength : Int) : Bool :=
  decide (signalStrength < 20) &&
  (match lastPos with
   | none => false
   | some lp => decide (lp.signalStrength ≠ 0) && decide (20 ≤ lp.signalStrength))

/-- The alert `unshift`ed by the signal loss branch (part_000 lines 245-255). -/
def signalLostAlert : Alert :=
  { type := AlertType.signal_lost, priority := AlertPriority.high, geofenceId := none }

/-- All alerts added (in final order, newest first) by one ingestion step:
the signal loss alert is `unshift`ed last, so it ends up on top of the
geofence alerts. -/
def emittedAlerts (dist : DistFn) (fences : List Geofence)
    (lastPos : Option GPSPosition) (newPos : GPSPosition) : List Alert :=
  (if signalLostCond lastPos newPos.signalStrength then [signalLostAlert] else []) ++
  geofenceEmitted dist fences lastPos newPos

/-- The alerts one non-playing ingestion step adds in front of the previous
alert list (the `newAlerts` construction of part_000 lines 195-255, minus
the untouched tail `prev.alerts`). -/
def ingestEmitted (dist : DistFn) (sv : ℚ) (now : Nat) (f : GeoFix)
    (prev : TrackingState) : List Alert :=
  let mineZones := if prev.initialPositionSet then prev.mineZones
                   else createMineZones f.latitude f.longitude
  let geofences := if prev.initialPositionSet then prev.geofences
                   else createMineGeofences f.latitude f.longitude
  emittedAlerts dist geofences prev.currentPosition (mkNewPosition dist sv now f mineZones)

/-- One live ingestion step: the state update of `handlePosition`
(part_000 lines 154-273). While playing, the updater returns `prev`
unchanged (line 159). On the first ever fix the zones and geofences are
created around it (lines 170-174). -/
def handlePosition (dist : DistFn) (sv : ℚ) (now : Nat) (f : GeoFix)
    (prev : TrackingState) : TrackingState :=
  if prev.isPlaying then prev else
  let mineZones := if prev.initialPositionSet then prev.mineZones
                   else createMineZones f.latitude f.longitude
  let geofences := if prev.initialPositionSet then prev.geofences
                   else createMineGeofences f.latitude f.longitude
  let newPosition := mkNewPosition dist sv now f mineZones
  { prev with
    currentPosition := some newPosition
    trackHistory := appendHistory prev.trackHistory newPosition
    geofences := geofences
    mineZones := mineZones
    isUnderground := newPosition.depth > 10
    initialPositionSet := true
    alerts := (ingestEmitted dist sv now f prev ++ prev.alerts).take 50 }

/-- The callback `startPlayback` (part_000 lines 370-376). -/
def startPlayback (s : TrackingState) : TrackingState :=
  { s with isPlaying := true, playbackIndex := 0 }

/-- The callback `stopPlayback` (part_000 lines 378-389):
`trackHistory[trackHistory.length - 1] || null` is the last element, if any. -/
def stopPlayback (s : TrackingState) : TrackingState :=
  { s with isPlaying := false
           playbackIndex := -1
           currentPosition := s.trackHistory.getLast? }

/-- The callback `setPlaybackIndex(index)` (part_000 lines 391-400):
`trackHistory[index] || prev.currentPosition`. -/
def setPlaybackIndex (index : Int) (s : TrackingState) : TrackingState :=
  { s with playbackIndex := index
           currentPosition :=
             match listGetInt s.trackHistory index with
             | some p => some p
             | none => s.currentPosition }

/-- One firing of the playback interval (part_000 lines 408-423). -/
def playbackTick (s : TrackingState) : TrackingState :=
  let nextIndex := s.playbackIndex + 1
  if (s.trackHistory.length : Int) ≤ nextIndex then
    { s with isPlaying := false, playbackIndex := (s.trackHistory.length : Int) - 1 }
  else
    { s with playbackIndex := nextIndex
             currentPosition := listGetInt s.trackHistory nextIndex }

/-- The playback state machine steps plus live ingestion, as a transition
relation; `seek` is `setPlaybackIndex` with an arbitrary integer index. -/
inductive TrackStep : TrackingState → TrackingState → Prop
  | start : ∀ s, TrackStep s (startPlayback s)
  | stop : ∀ s, TrackStep s (stopPlayback s)
  | seek : ∀ (i : Int) (s : TrackingState), TrackStep s (setPlaybackIndex i s)
  | tick : ∀ s, TrackStep s (playbackTick s)
  | ingest : ∀ (dist : DistFn) (sv : ℚ) (now : Nat) (f : GeoFix) (s : TrackingState),
      TrackStep s (handlePosition dist sv now f s)

/-- States reachable from the initial React state by any sequence of
start, stop, seek, tick and live ingestion. -/
def TrackReachable (s : TrackingState) : Prop :=
  Relation.ReflTransGen TrackStep initialTrackingState s

/-- The transition relation without `seek`. -/
inductive TrackStepNoSeek : TrackingState → TrackingState → Prop
  | start : ∀ s, TrackStepNoSeek s (startPlayback s)
  | stop : ∀ s, TrackStepNoSeek s (stopPlayback s)
  | tick : ∀ s, TrackStepNoSeek s (playbackTick s)
  | ingest : ∀ (dist : DistFn) (sv : ℚ) (now : Nat) (f : GeoFix) (s : TrackingState),
      TrackStepNoSeek s (handlePosition dist sv now f s)

/-- States reachable without ever seeking. -/
def TrackReachableNoSeek (s : TrackingState) : Prop :=
  Relation.ReflTransGen TrackStepNoSeek initialTrackingState s

/-- Per device simulation progress (part_001 lines 32-35). -/
structure SimProgress where
  pathIndex : Nat
  progress : ℚ
  deriving DecidableEq

/-- The `simulationStateRef.current` map, as an association list in
insertion order. -/
abbrev SimProgressMap : Type := List (String × SimProgress)

/-- Membership test `simulationStateRef.current.has(deviceId)`. -/
def simHasKey (m : SimProgressMap) (k : String) : Bool :=
  m.any (fun e => e.1 == k)

/-- Lookup `simulationStateRef.current.get(deviceId)`. -/
def simLookup (m : SimProgressMap) (k : String) : Option SimProgress :=
  (m.find? (fun e => e.1 == k)).map (fun e => e.2)

/-- Number of entries stored for one device id. -/
def simCountKey (m : SimProgressMap) (k : String) : Nat :=
  m.countP (fun e => e.1 == k)

/-- The progress initialisation loop of `startSimulation`
(part_001 lines 327-332): for each simulated device id, create a fresh
tracker only if none exists. `ids` is `devicePaths.map(p => p.deviceId)`. -/
def initSimulationProgress (m : SimProgressMap) (ids : List String) : SimProgressMap :=
  ids.foldl
    (fun acc d => if simHasKey acc d then acc else acc ++ [(d, { pathIndex := 0, progress := 0 })])
    m

/-- The callback `stopSimulation` (part_001 lines 434-442): clears every tracker. -/
def stopSimulation (_m : SimProgressMap) : SimProgressMap := []

/-- A distance function that returns 0 everywhere (sample input). -/
def distZero : DistFn := fun _ _ _ _ => 0

/-- A distance function that returns the latitude of the second point
(sample input: lets a fix choose its own distance to every fence). -/
def distLat : DistFn := fun _ _ lat _ => lat

/-- A sample position. -/
def pos0 : GPSPosition :=
  { id := 0, latitude := 0, longitude := 0, timestamp := 0, speed := 0,
    heading := 0, altitude := 0, accuracy := 10, battery := 85, depth := 0,
    zone := "Surface", signalStrength := 90 }

/-- A sample geolocation fix. -/
def fix0 : GeoFix :=
  { latitude := 0, longitude := 0, accuracy := 10, speed := none,
    heading := none, altitude := none, timestamp := 0 }

/-- A state in the middle of playback over a one element history. -/
def sPlaying1 : TrackingState :=
  { currentPosition := some pos0, trackHistory := [pos0], geofences := [],
    alerts := [], isPlaying := true, playbackIndex := 0, playbackSpeed := 1,
    mineZones := [], isUnderground := false, initialPositionSet := true }

/-- A state paused at cursor 1 over a two element history. -/
def sPaused1 : TrackingState :=
  { currentPosition := some pos0, trackHistory := [pos0, pos0], geofences := [],
    alerts := [], isPlaying := false, playbackIndex := 1, playbackSpeed := 1,
    mineZones := [], isUnderground := false, initialPositionSet := true }

/-- A live state with a one element history. -/
def sLive1 : TrackingState :=
  { currentPosition := some pos0, trackHistory := [pos0], geofences := [],
    alerts := [], isPlaying := false, playbackIndex := -1, playbackSpeed := 1,
    mineZones := [], isUnderground := false, initialPositionSet := true }

/-- Initial-like state whose zones and geofences are already established:
used to run ingestion against a chosen geofence list. -/
def geoRunState (g : Geofence) : TrackingState :=
  { initialTrackingState with geofences := [g], initialPositionSet := true }

/-- Initial-like state with no geofences and the initialisation flag set:
used for pure signal strength runs. -/
def sigRunState : TrackingState :=
  { initialTrackingState with initialPositionSet := true }

/-- A fix whose computed signal strength is 25 when the sine parameter is 1:
accuracy 60 gives depth round(30 + 20) = 50 and signal round(40 - 15) = 25. -/
def fixSig25 : GeoFix :=
  { latitude := 0, longitude := 0, accuracy := 60, speed := none,
    heading := none, altitude := none, timestamp := 0 }

/-- A fix of accuracy 75: signal 18 at sine parameter -39/50
(depth round(37.5 - 15.6) = 22, signal round(25 - 6.6) = 18) and
signal 15 at sine parameter -1/8 (depth 35, signal round(14.5) = 15). -/
def fixSig75 : GeoFix :=
  { latitude := 0, longitude := 0, accuracy := 75, speed := none,
    heading := none, altitude := none, timestamp := 0 }

/-- A sample active geofence with enter alerting. -/
def fenceSample : Geofence :=
  { id := "g-sample", name := "Sample Zone", centerLat := 0, centerLng := 0,
    radius := 100, isActive := true, alertOnEnter := true, alertOnExit := false,
    zoneType := "hazard" }

/-- A fix that `distLat` places 150 away from every fence center. -/
def fixOut : GeoFix :=
  { latitude := 150, longitude := 0, accuracy := 10, speed := none,
    heading := none, altitude := none, timestamp := 0 }

/-- A fix that `distLat` places 50 away from every fence center. -/
def fixIn : GeoFix :=
  { latitude := 50, longitude := 0, accuracy := 10, speed := none,
    heading := none, altitude := none, timestamp := 0 }







/-! ## Helper lemmas -/

/-- The rounding `jsRound` written with the Mathlib floor. -/
theorem jsRound_eq_floor (q : ℚ) : jsRound q = ⌊q + 1/2⌋ := by
  rw [jsRound, Rat.floor_def']
  exact Rat.floor_def.symm

/-- Bounds for `calculateSignalStrength` on nonnegative inputs. -/
theorem calculateSignalStrength_bounds (accuracy : ℚ) (depth : Int)
    (ha : 0 ≤ accuracy) (hd : 0 ≤ depth) :
    5 ≤ calculateSignalStrength accuracy depth ∧
      calculateSignalStrength accuracy depth ≤ 100 := by
  unfold calculateSignalStrength
  refine ⟨le_max_left 5 _, max_le (by norm_num) ?_⟩
  rw [jsRound_eq_floor]
  have h1 : max (0:ℚ) (100 - accuracy) ≤ 100 := max_le (by norm_num) (by linarith)
  have h2 : (0:ℚ) ≤ (depth : ℚ) * (3/10) := by positivity
  have hx : max 0 (100 - accuracy) - (depth : ℚ) * (3/10) + 1/2 < ((101 : ℤ) : ℚ) := by
    push_cast
    linarith
  have := Int.floor_lt.mpr hx
  omega

/-- The depth `calculateDepth` computes is never negative when the sine value is
in [-1, 1]. -/
theorem calculateDepth_nonneg (sv accuracy : ℚ) (h1 : -1 ≤ sv) (h2 : sv ≤ 1) :
    0 ≤ calculateDepth sv accuracy := by
  unfold calculateDepth
  split
  · rename_i hacc
    rw [jsRound_eq_floor]
    have hmin : (25:ℚ) ≤ min (accuracy / 2) 200 := le_min (by linarith) (by norm_num)
    have hsv : (-20:ℚ) ≤ sv * 20 := by nlinarith
    have hx : ((0 : ℤ) : ℚ) ≤ min (accuracy / 2) 200 + sv * 20 + 1/2 := by
      push_cast
      linarith
    exact Int.le_floor.mpr hx
  · exact le_refl 0

/-! ## Claims -/

/-- C1, counterexample: with `isPlaying = true` a live fix does NOT get
appended to the history (the handler returns the state unchanged), contrary
to the claim that history grows by one. -/
theorem handlePosition_playing_drops_fix :
    sPlaying1.isPlaying = true ∧
    (handlePosition distZero 0 0 fix0 sPlaying1).trackHistory.length ≠
      sPlaying1.trackHistory.length + 1 := by
  decide

/-- C1 (amended): while playback is active, live ingestion is suppressed
entirely: `handlePosition` returns the previous state unchanged, so neither
the history nor the current position view changes. -/
theorem handlePosition_noop_while_playing
    (dist : DistFn) (sv : ℚ) (now : Nat) (f : GeoFix) (s : TrackingState)
    (h : s.isPlaying = true) : handlePosition dist sv now f s = s := by
  simp [handlePosition, h]

theorem handlePosition_noop_while_playing_witness :
    sPlaying1.isPlaying = true ∧ handlePosition distZero 0 0 fix0 sPlaying1 = sPlaying1 :=
  ⟨rfl, handlePosition_noop_while_playing distZero 0 0 fix0 sPlaying1 rfl⟩

/-- C2, counterexample: stopping from a playing state with nonempty history
moves the cursor to -1 (the Live cursor), not to the current cursor as the
claim states. -/
theorem stopPlayback_not_paused_at_cursor :
    sPlaying1.trackHistory ≠ [] ∧ sPlaying1.playbackIndex = 0 ∧
    (stopPlayback sPlaying1).playbackIndex ≠ sPlaying1.playbackIndex := by
  decide

/-- C2 (amended): `stopPlayback` always returns to the Live view: playing
becomes false, the cursor becomes -1 regardless of the history, and the
current position becomes the most recent history entry (none if empty). -/
theorem stopPlayback_spec (s : TrackingState) :
    (stopPlayback s).isPlaying = false ∧ (stopPlayback s).playbackIndex = -1 ∧
    (stopPlayback s).currentPosition = s.trackHistory.getLast? :=
  ⟨rfl, rfl, rfl⟩

/-- C3, counterexample: starting from Paused at cursor 1 resets the cursor
to 0, contrary to the claim that a paused cursor is left unchanged. -/
theorem startPlayback_resets_paused_cursor :
    sPaused1.isPlaying = false ∧ sPaused1.playbackIndex = 1 ∧
    (startPlayback sPaused1).playbackIndex ≠ sPaused1.playbackIndex := by
  decide

/-- C3 (amended): `startPlayback` unconditionally enters Playing with the
cursor set to 0, from every prior state (Live, Paused anywhere, or already
Playing). -/
theorem startPlayback_spec (s : TrackingState) :
    (startPlayback s).isPlaying = true ∧ (startPlayback s).playbackIndex = 0 :=
  ⟨rfl, rfl⟩

/-- C4, counterexample: seeking to 5 on a history of length 1 leaves the
cursor at 5, outside [0, 0]: no clamping happens. -/
theorem setPlaybackIndex_no_clamp :
    sLive1.trackHistory.length = 1 ∧
    (setPlaybackIndex 5 sLive1).playbackIndex = 5 ∧
    ¬((setPlaybackIndex 5 sLive1).playbackIndex ≤ (sLive1.trackHistory.length : Int) - 1) := by
  decide

/-- C4 (amended): `setPlaybackIndex i` stores `i` unclamped, leaves the
playing flag unchanged, and updates the current position to `history[i]`
when `i` is in range, keeping the previous current position otherwise. -/
theorem setPlaybackIndex_spec (s : TrackingState) (i : Int) :
    (setPlaybackIndex i s).playbackIndex = i ∧
    (setPlaybackIndex i s).isPlaying = s.isPlaying ∧
    (setPlaybackIndex i s).currentPosition =
      (match listGetInt s.trackHistory i with
       | some p => some p
       | none => s.currentPosition) :=
  ⟨rfl, rfl, rfl⟩

/-- C10: the computed signal strength lies in [5, 100] for every
accuracy >= 0 and depth >= 0, and every position built by the live
ingestion path satisfies the same bounds whenever the sine value is
in [-1, 1]. -/
theorem claim_C10_signal_range :
    (∀ (accuracy : ℚ) (depth : Int), 0 ≤ accuracy → 0 ≤ depth →
      5 ≤ calculateSignalStrength accuracy depth ∧
        calculateSignalStrength accuracy depth ≤ 100) ∧
    (∀ (dist : DistFn) (sv : ℚ) (now : Nat) (f : GeoFix) (zones : List MineZone),
      -1 ≤ sv → sv ≤ 1 → 0 ≤ f.accuracy →
      5 ≤ (mkNewPosition dist sv now f zones).signalStrength ∧
        (mkNewPosition dist sv now f zones).signalStrength ≤ 100) := by
  refine ⟨fun a d ha hd => calculateSignalStrength_bounds a d ha hd,
          fun dist sv now f zones h1 h2 ha => ?_⟩
  have hd := calculateDepth_nonneg sv f.accuracy h1 h2
  have hb := calculateSignalStrength_bounds f.accuracy (calculateDepth sv f.accuracy) ha hd
  simpa [mkNewPosition] using hb

unseal Rat.add Rat.mul Rat.inv Rat.sub in
theorem claim_C10_signal_range_witness :
    (0:ℚ) ≤ 10 ∧ (0:ℤ) ≤ 3 ∧
    5 ≤ calculateSignalStrength 10 3 ∧ calculateSignalStrength 10 3 ≤ 100 :=
  ⟨by decide, by decide,
   (claim_C10_signal_range.1 10 3 (by decide) (by decide)).1,
   (claim_C10_signal_range.1 10 3 (by decide) (by decide)).2⟩

/-- Folding the history append over any input sequence keeps exactly the
most recent 200 elements, in order. -/
theorem foldl_appendHistory_eq {α : Type} (ps : List α) :
    ps.foldl appendHistory [] = ps.drop (ps.length - 200) := by
  induction ps using List.reverseRecOn with
  | nil => simp
  | append_singleton qs p ih =>
    rw [List.foldl_append, List.foldl_cons, List.foldl_nil, ih]
    unfold appendHistory
    rw [List.length_drop, List.drop_drop]
    have hlen : (qs ++ [p]).length = qs.length + 1 := by
      simp only [List.length_append, List.length_cons, List.length_nil]
    rw [hlen]
    rw [List.drop_append_of_le_length (by omega : qs.length + 1 - 200 ≤ qs.length)]
    have hidx : qs.length - 200 + (qs.length - (qs.length - 200) - 199) =
        qs.length + 1 - 200 := by omega
    rw [hidx]

/-- C8: the track history built by repeatedly applying the append of
part_000 line 193 (also part_001 lines 191 and 198) never exceeds 200
entries, and past 200 appends it holds exactly the most recent 200
positions in append order. -/
theorem claim_C8_bounded_history {α : Type} (ps : List α) :
    (ps.foldl appendHistory []).length ≤ 200 ∧
    (200 < ps.length →
      (ps.foldl appendHistory []).length = 200 ∧
      ps.foldl appendHistory [] = ps.drop (ps.length - 200)) := by
  have h := foldl_appendHistory_eq ps
  refine ⟨by rw [h, List.length_drop]; omega, fun hN => ⟨by rw [h, List.length_drop]; omega, h⟩⟩

set_option maxRecDepth 40000 in
theorem claim_C8_bounded_history_witness :
    200 < (List.range 201).length ∧
    ((List.range 201).foldl appendHistory []).length = 200 :=
  ⟨by decide, ((claim_C8_bounded_history (List.range 201)).2 (by decide)).1⟩

/-- Stepping `initSimulationProgress` over one device id. -/
theorem initSimulationProgress_cons (m : SimProgressMap) (i : String) (ids : List String) :
    initSimulationProgress m (i :: ids) =
      initSimulationProgress
        (if simHasKey m i then m else m ++ [(i, { pathIndex := 0, progress := 0 })]) ids := rfl

/-- A lookup that succeeds still succeeds after appending entries. -/
theorem simLookup_append (m l : SimProgressMap) (d : String) (p : SimProgress)
    (h : simLookup m d = some p) : simLookup (m ++ l) d = some p := by
  unfold simLookup at h ⊢
  obtain ⟨e, he, hep⟩ := Option.map_eq_some'.mp h
  rw [List.find?_append, he]
  simpa using hep

/-- A key with no entry has no `find?` hit. -/
theorem simFind_eq_none_of_hasKey_false (m : SimProgressMap) (d : String)
    (h : simHasKey m d = false) : m.find? (fun e => e.1 == d) = none := by
  unfold simHasKey at h
  rw [List.find?_eq_none]
  intro x hx
  intro hpx
  have : m.any (fun e => e.1 == d) = true := List.any_eq_true.mpr ⟨x, hx, hpx⟩
  rw [h] at this
  cases this

/-- An existing tracker is never overwritten when the simulator starts. -/
theorem init_lookup_mono (ids : List String) :
    ∀ (m : SimProgressMap) (d : String) (p : SimProgress),
      simLookup m d = some p → simLookup (initSimulationProgress m ids) d = some p := by
  induction ids with
  | nil => exact fun m d p h => h
  | cons i ids ih =>
    intro m d p h
    rw [initSimulationProgress_cons]
    split
    · exact ih m d p h
    · exact ih _ d p (simLookup_append m _ d p h)

/-- Starting the simulator does not duplicate the tracker of a device that
already has one. -/
theorem init_count_preserved (ids : List String) :
    ∀ (m : SimProgressMap) (d : String), simHasKey m d = true →
      simCountKey (initSimulationProgress m ids) d = simCountKey m d := by
  induction ids with
  | nil => intro m d _; rfl
  | cons i ids ih =>
    intro m d h
    rw [initSimulationProgress_cons]
    split
    · exact ih m d h
    · rename_i hni
      have hne : i ≠ d := by
        intro hEq
        rw [hEq] at hni
        exact hni h
      have h2 : simHasKey (m ++ [(i, { pathIndex := 0, progress := 0 })]) d = true := by
        unfold simHasKey at h ⊢
        rw [List.any_append, h]
        rfl
      rw [ih _ d h2]
      unfold simCountKey
      rw [List.countP_append]
      simp [hne]

/-- After a fresh start, a started device id looks up as the zero tracker. -/
theorem init_fresh_zero (ids : List String) :
    ∀ (m : SimProgressMap) (d : String),
      (simLookup m d = some { pathIndex := 0, progress := 0 } ∨
        (simHasKey m d = false ∧ d ∈ ids)) →
      simLookup (initSimulationProgress m ids) d =
        some { pathIndex := 0, progress := 0 } := by
  induction ids with
  | nil =>
    rintro m d (h | ⟨h1, h2⟩)
    · exact h
    · cases h2
  | cons i ids ih =>
    rintro m d (h | ⟨h1, h2⟩)
    · rw [initSimulationProgress_cons]
      split
      · exact ih m d (Or.inl h)
      · exact ih _ d (Or.inl (simLookup_append m _ d _ h))
    · rw [initSimulationProgress_cons]
      by_cases hdi : i = d
      · subst hdi
        rw [if_neg (by rw [h1]; exact Bool.false_ne_true)]
        apply ih
        left
        unfold simLookup
        rw [List.find?_append, simFind_eq_none_of_hasKey_false m i h1]
        simp
      · have h2' : d ∈ ids := by
          rcases List.mem_cons.mp h2 with hEq | hMem
          · exact absurd hEq.symm hdi
          · exact hMem
        split
        · exact ih _ d (Or.inr ⟨h1, h2'⟩)
        · apply ih
          right
          refine ⟨?_, h2'⟩
          unfold simHasKey at h1 ⊢
          rw [List.any_append, h1]
          simp [hdi]

/-- C9: starting the simulator is idempotent per running device: an existing
tracker keeps its value and is not duplicated; stopping clears all progress
state, so after stop-then-start every started device id holds the zero
tracker (path index 0, progress 0). -/
theorem claim_C9_sim_progress :
    ∀ (m : SimProgressMap) (ids : List String) (d : String),
      (∀ p, simLookup m d = some p → simLookup (initSimulationProgress m ids) d = some p) ∧
      (simHasKey m d = true →
        simCountKey (initSimulationProgress m ids) d = simCountKey m d) ∧
      (d ∈ ids → simLookup (initSimulationProgress (stopSimulation m) ids) d =
        some { pathIndex := 0, progress := 0 }) := by
  intro m ids d
  refine ⟨fun p h => init_lookup_mono ids m d p h,
          fun h => init_count_preserved ids m d h,
          fun hmem => ?_⟩
  exact init_fresh_zero ids [] d (Or.inr ⟨rfl, hmem⟩)

theorem claim_C9_sim_progress_witness :
    simLookup [("dev-a", { pathIndex := 3, progress := 0 })] "dev-a" =
      some { pathIndex := 3, progress := 0 } ∧
    simLookup
      (initSimulationProgress [("dev-a", { pathIndex := 3, progress := 0 })] ["dev-a", "dev-b"])
      "dev-a" = some { pathIndex := 3, progress := 0 } ∧
    ("dev-b" ∈ ["dev-a", "dev-b"]) ∧
    simLookup
      (initSimulationProgress
        (stopSimulation [("dev-a", { pathIndex := 3, progress := 0 })]) ["dev-a", "dev-b"])
      "dev-b" = some { pathIndex := 0, progress := 0 } :=
  ⟨by decide,
   (claim_C9_sim_progress [("dev-a", { pathIndex := 3, progress := 0 })] ["dev-a", "dev-b"]
      "dev-a").1 _ (by decide),
   by decide,
   (claim_C9_sim_progress [("dev-a", { pathIndex := 3, progress := 0 })] ["dev-a", "dev-b"]
      "dev-b").2.2 (by decide)⟩

/-- C5, counterexample: starting playback on the initial (empty history)
state is reachable and yields playing = true with cursor 0 and history
length 0, so the claimed invariant cursor < history length fails. -/
theorem playback_invariant_fails_on_empty_start :
    TrackReachable (startPlayback initialTrackingState) ∧
    (startPlayback initialTrackingState).isPlaying = true ∧
    ¬((startPlayback initialTrackingState).playbackIndex <
      ((startPlayback initialTrackingState).trackHistory.length : Int)) :=
  ⟨Relation.ReflTransGen.single (TrackStep.start _), rfl, by decide⟩


/-- Ingestion never changes the playing flag. -/
theorem handlePosition_isPlaying (dist : DistFn) (sv : ℚ) (now : Nat) (f : GeoFix)
    (t : TrackingState) : (handlePosition dist sv now f t).isPlaying = t.isPlaying := by
  unfold handlePosition
  split <;> rfl

/-- Ingestion never changes the playback cursor. -/
theorem handlePosition_playbackIndex (dist : DistFn) (sv : ℚ) (now : Nat) (f : GeoFix)
    (t : TrackingState) : (handlePosition dist sv now f t).playbackIndex = t.playbackIndex := by
  unfold handlePosition
  split <;> rfl

/-- While playing, ingestion is the identity. -/
theorem handlePosition_of_playing (dist : DistFn) (sv : ℚ) (now : Nat) (f : GeoFix)
    (t : TrackingState) (h : t.isPlaying = true) : handlePosition dist sv now f t = t := by
  unfold handlePosition
  rw [if_pos h]

/-- The cursor invariant maintained by every non-seek step. -/
theorem trackNoSeek_invariant (s : TrackingState) (h : TrackReachableNoSeek s) :
    -1 ≤ s.playbackIndex ∧
    (s.isPlaying = true →
      0 ≤ s.playbackIndex ∧
      (s.trackHistory.length ≠ 0 → s.playbackIndex < (s.trackHistory.length : Int))) := by
  induction h with
  | refl => exact ⟨le_refl _, fun hp => Bool.noConfusion hp⟩
  | tail hab hstep ih =>
    rename_i b c
    clear hab
    obtain ⟨ih1, ih2⟩ := ih
    cases hstep with
    | start =>
      constructor
      · show -1 ≤ (0 : Int)
        omega
      · intro _hp
        constructor
        · show (0:Int) ≤ 0
          omega
        · intro hne
          have ht : b.trackHistory.length ≠ 0 := hne
          show (0:Int) < (b.trackHistory.length : Int)
          omega
    | stop =>
      constructor
      · show -1 ≤ (-1 : Int)
        omega
      · intro hp
        exact Bool.noConfusion hp
    | tick =>
      simp only [playbackTick]
      split
      · rename_i hc
        constructor
        · show -1 ≤ (b.trackHistory.length : Int) - 1
          omega
        · intro hp
          exact Bool.noConfusion hp
      · rename_i hc
        constructor
        · show -1 ≤ b.playbackIndex + 1
          omega
        · intro _hp
          constructor
          · show (0:Int) ≤ b.playbackIndex + 1
            omega
          · intro _hne
            show b.playbackIndex + 1 < (b.trackHistory.length : Int)
            omega
    | ingest dist sv now f =>
      by_cases hpt : b.isPlaying = true
      · rw [handlePosition_of_playing dist sv now f b hpt]
        exact ⟨ih1, ih2⟩
      · constructor
        · rw [handlePosition_playbackIndex]
          exact ih1
        · intro hptrue
          rw [handlePosition_isPlaying] at hptrue
          exact absurd hptrue hpt

/-- C5 (amended): in every state reachable by start, stop, playback ticks
and live ingestion (no seek), a playing state has cursor >= 0, and
cursor < history length whenever the history is nonempty; `seek` and
starting on an empty history can break the stronger claimed bound. -/
theorem claim_C5_playing_cursor_invariant (s : TrackingState)
    (h : TrackReachableNoSeek s) (hp : s.isPlaying = true) :
    0 ≤ s.playbackIndex ∧
    (s.trackHistory.length ≠ 0 → s.playbackIndex < (s.trackHistory.length : Int)) :=
  (trackNoSeek_invariant s h).2 hp

theorem claim_C5_playing_cursor_invariant_witness :
    0 ≤ (startPlayback initialTrackingState).playbackIndex ∧
    ((startPlayback initialTrackingState).trackHistory.length ≠ 0 →
      (startPlayback initialTrackingState).playbackIndex <
        ((startPlayback initialTrackingState).trackHistory.length : Int)) :=
  claim_C5_playing_cursor_invariant (startPlayback initialTrackingState)
    (Relation.ReflTransGen.single (TrackStepNoSeek.start _)) rfl

/-- Projection: `mkNewPosition` keeps the fix latitude. -/
theorem mkNewPosition_latitude (dist : DistFn) (sv : ℚ) (now : Nat) (f : GeoFix)
    (zones : List MineZone) : (mkNewPosition dist sv now f zones).latitude = f.latitude := rfl

/-- Projection: `mkNewPosition` keeps the fix longitude. -/
theorem mkNewPosition_longitude (dist : DistFn) (sv : ℚ) (now : Nat) (f : GeoFix)
    (zones : List MineZone) : (mkNewPosition dist sv now f zones).longitude = f.longitude := rfl

/-- The signal loss alert never counts as a geofence enter alert, so the
enter count of one step comes from the geofence loop alone. -/
theorem emittedAlerts_countP_enter (dist : DistFn) (fences : List Geofence)
    (lp : Option GPSPosition) (np : GPSPosition) :
    (emittedAlerts dist fences lp np).countP (fun a => a.type == AlertType.geofence_enter) =
      (geofenceEmitted dist fences lp np).countP (fun a => a.type == AlertType.geofence_enter) := by
  unfold emittedAlerts
  rw [List.countP_append]
  split
  · simp [signalLostAlert]
  · simp

/-- C6: for an active geofence, the per fence loop body emits an enter alert
exactly when a previous position exists, it was strictly outside, the new
position is inside (boundary included) and `alertOnEnter` holds; the first
ever fix and inactive fences emit nothing; and an outside-inside-inside run
of three fixes emits exactly one enter alert, on the middle fix. -/
theorem claim_C6_geofence_enter (dist : DistFn) :
    (∀ (fence : Geofence) (lp : Option GPSPosition) (np : GPSPosition),
      fence.isActive = true →
      ((∃ a ∈ fenceAlerts dist fence lp np, a.type = AlertType.geofence_enter) ↔
        (∃ p, lp = some p ∧
          fence.radius < dist fence.centerLat fence.centerLng p.latitude p.longitude ∧
          dist fence.centerLat fence.centerLng np.latitude np.longitude ≤ fence.radius ∧
          fence.alertOnEnter = true))) ∧
    (∀ (fence : Geofence) (np : GPSPosition), fenceAlerts dist fence none np = []) ∧
    (∀ (fence : Geofence) (lp : Option GPSPosition) (np : GPSPosition),
      fence.isActive = false → fenceAlerts dist fence lp np = []) ∧
    (∀ (g : Geofence) (f1 f2 f3 : GeoFix) (sv1 sv2 sv3 : ℚ) (n1 n2 n3 : Nat),
      g.isActive = true → g.alertOnEnter = true →
      g.radius < dist g.centerLat g.centerLng f1.latitude f1.longitude →
      dist g.centerLat g.centerLng f2.latitude f2.longitude ≤ g.radius →
      dist g.centerLat g.centerLng f3.latitude f3.longitude ≤ g.radius →
      (ingestEmitted dist sv1 n1 f1 (geoRunState g)).countP
          (fun a => a.type == AlertType.geofence_enter) = 0 ∧
      (ingestEmitted dist sv2 n2 f2
          (handlePosition dist sv1 n1 f1 (geoRunState g))).countP
          (fun a => a.type == AlertType.geofence_enter) = 1 ∧
      (ingestEmitted dist sv3 n3 f3
          (handlePosition dist sv2 n2 f2
            (handlePosition dist sv1 n1 f1 (geoRunState g)))).countP
          (fun a => a.type == AlertType.geofence_enter) = 0) := by
  refine ⟨?_, fun fence np => rfl, ?_, ?_⟩
  · intro fence lp np hact
    cases lp with
    | none => simp [fenceAlerts]
    | some p =>
      by_cases hw : dist fence.centerLat fence.centerLng p.latitude p.longitude ≤ fence.radius <;>
      by_cases hn : dist fence.centerLat fence.centerLng np.latitude np.longitude ≤ fence.radius <;>
      by_cases he : fence.alertOnEnter = true <;>
      by_cases hx : fence.alertOnExit = true <;>
      simp [fenceAlerts, hact, hw, hn, he, hx, not_le, Bool.not_eq_true] <;>
      try exact not_le.mp hw
  · intro fence lp np hact
    cases lp with
    | none => rfl
    | some p => simp [fenceAlerts, hact]
  · intro g f1 f2 f3 sv1 sv2 sv3 n1 n2 n3 hact hen h1 h2 h3
    refine ⟨?_, ?_, ?_⟩
    · show (emittedAlerts dist [g] none
          (mkNewPosition dist sv1 n1 f1 [])).countP
          (fun a => a.type == AlertType.geofence_enter) = 0
      rw [emittedAlerts_countP_enter]
      rfl
    · show (emittedAlerts dist [g] (some (mkNewPosition dist sv1 n1 f1 []))
          (mkNewPosition dist sv2 n2 f2 [])).countP
          (fun a => a.type == AlertType.geofence_enter) = 1
      rw [emittedAlerts_countP_enter]
      show ((fenceAlerts dist g (some (mkNewPosition dist sv1 n1 f1 []))
          (mkNewPosition dist sv2 n2 f2 []) ++ [])).countP
          (fun (a : Alert) => a.type == AlertType.geofence_enter) = 1
      unfold fenceAlerts
      simp only [mkNewPosition_latitude, mkNewPosition_longitude]
      simp [hact, hen, not_le.mpr h1, h2]
    · show (emittedAlerts dist [g] (some (mkNewPosition dist sv2 n2 f2 []))
          (mkNewPosition dist sv3 n3 f3 [])).countP
          (fun a => a.type == AlertType.geofence_enter) = 0
      rw [emittedAlerts_countP_enter]
      show ((fenceAlerts dist g (some (mkNewPosition dist sv2 n2 f2 []))
          (mkNewPosition dist sv3 n3 f3 []) ++ [])).countP
          (fun (a : Alert) => a.type == AlertType.geofence_enter) = 0
      unfold fenceAlerts
      simp only [mkNewPosition_latitude, mkNewPosition_longitude]
      simp [hact, h2, h3]

unseal Rat.add Rat.mul Rat.inv Rat.sub in
theorem claim_C6_geofence_enter_witness :
    fenceSample.isActive = true ∧ fenceSample.alertOnEnter = true ∧
    fenceSample.radius < distLat fenceSample.centerLat fenceSample.centerLng
      fixOut.latitude fixOut.longitude ∧
    distLat fenceSample.centerLat fenceSample.centerLng
      fixIn.latitude fixIn.longitude ≤ fenceSample.radius ∧
    (ingestEmitted distLat 0 0 fixOut (geoRunState fenceSample)).countP
        (fun a => a.type == AlertType.geofence_enter) = 0 ∧
    (ingestEmitted distLat 0 1 fixIn
        (handlePosition distLat 0 0 fixOut (geoRunState fenceSample))).countP
        (fun a => a.type == AlertType.geofence_enter) = 1 ∧
    (ingestEmitted distLat 0 2 fixIn
        (handlePosition distLat 0 1 fixIn
          (handlePosition distLat 0 0 fixOut (geoRunState fenceSample)))).countP
        (fun a => a.type == AlertType.geofence_enter) = 0 := by
  have h := (claim_C6_geofence_enter distLat).2.2.2 fenceSample fixOut fixIn fixIn 0 0 0 0 1 2
    (by decide) (by decide) (by decide) (by decide) (by decide)
  exact ⟨by decide, by decide, by decide, by decide, h.1, h.2.1, h.2.2⟩

/-- The geofence loop body never emits a signal loss alert. -/
theorem fenceAlerts_countP_signal (dist : DistFn) (g : Geofence)
    (lp : Option GPSPosition) (np : GPSPosition) :
    (fenceAlerts dist g lp np).countP (fun a => a.type == AlertType.signal_lost) = 0 := by
  rw [List.countP_eq_zero]
  intro a ha
  cases lp with
  | none => cases ha
  | some p =>
    simp only [fenceAlerts] at ha
    by_cases hact : g.isActive = true
    · rw [if_pos hact] at ha
      rcases List.mem_append.mp ha with h | h
      · split at h
        · obtain rfl := List.mem_singleton.mp h
          simp
        · cases h
      · split at h
        · obtain rfl := List.mem_singleton.mp h
          simp
        · cases h
    · rw [if_neg hact] at ha
      cases ha

/-- The whole geofence loop never emits a signal loss alert. -/
theorem geofenceEmitted_countP_signal (dist : DistFn) (lp : Option GPSPosition)
    (np : GPSPosition) (fences : List Geofence) :
    (geofenceEmitted dist fences lp np).countP
      (fun a => a.type == AlertType.signal_lost) = 0 := by
  unfold geofenceEmitted
  suffices h : ∀ (acc : List Alert),
      (List.foldl (fun acc fence => fenceAlerts dist fence lp np ++ acc) acc fences).countP
        (fun a => a.type == AlertType.signal_lost) =
      acc.countP (fun a => a.type == AlertType.signal_lost) by
    simpa using h []
  induction fences with
  | nil => intro acc; rfl
  | cons g gs ih =>
    intro acc
    rw [List.foldl_cons, ih, List.countP_append, fenceAlerts_countP_signal]
    exact Nat.zero_add _

/-- One ingestion step emits exactly one signal loss alert when the guard of
part_000 line 244 holds, and none otherwise. -/
theorem emittedAlerts_countP_signal (dist : DistFn) (fences : List Geofence)
    (lp : Option GPSPosition) (np : GPSPosition) :
    (emittedAlerts dist fences lp np).countP (fun a => a.type == AlertType.signal_lost) =
      if signalLostCond lp np.signalStrength then 1 else 0 := by
  unfold emittedAlerts
  rw [List.countP_append, geofenceEmitted_countP_signal]
  split <;> simp [signalLostAlert]

unseal Rat.add Rat.mul Rat.inv Rat.sub in
/-- C7: one ingestion step emits a signal lost alert exactly when a previous
position exists with signal >= 20 and the new signal is < 20 (first ever
reading never triggers), the alert has priority high, and the concrete
reading sequences [25, 18] and [18, 25, 15] each yield exactly one alert,
on the falling edge. -/
theorem claim_C7_signal_lost :
    (∀ (dist : DistFn) (fences : List Geofence) (lp : Option GPSPosition) (np : GPSPosition),
      (emittedAlerts dist fences lp np).countP (fun a => a.type == AlertType.signal_lost) =
        if signalLostCond lp np.signalStrength then 1 else 0) ∧
    (∀ (lp : Option GPSPosition) (sig : Int),
      signalLostCond lp sig = true ↔
        ∃ p, lp = some p ∧ 20 ≤ p.signalStrength ∧ sig < 20) ∧
    signalLostAlert.priority = AlertPriority.high ∧
    ((mkNewPosition distZero 1 0 fixSig25 []).signalStrength = 25 ∧
     (mkNewPosition distZero (-39/50) 0 fixSig75 []).signalStrength = 18 ∧
     (mkNewPosition distZero (-1/8) 0 fixSig75 []).signalStrength = 15) ∧
    ((ingestEmitted distZero 1 0 fixSig25 sigRunState).countP
        (fun a => a.type == AlertType.signal_lost) = 0 ∧
     (ingestEmitted distZero (-39/50) 1 fixSig75
        (handlePosition distZero 1 0 fixSig25 sigRunState)).countP
        (fun a => a.type == AlertType.signal_lost) = 1) ∧
    ((ingestEmitted distZero (-39/50) 0 fixSig75 sigRunState).countP
        (fun a => a.type == AlertType.signal_lost) = 0 ∧
     (ingestEmitted distZero 1 1 fixSig25
        (handlePosition distZero (-39/50) 0 fixSig75 sigRunState)).countP
        (fun a => a.type == AlertType.signal_lost) = 0 ∧
     (ingestEmitted distZero (-1/8) 2 fixSig75
        (handlePosition distZero 1 1 fixSig25
          (handlePosition distZero (-39/50) 0 fixSig75 sigRunState))).countP
        (fun a => a.type == AlertType.signal_lost) = 1) := by
  refine ⟨fun dist fences lp np => emittedAlerts_countP_signal dist fences lp np,
          ?_, rfl, by decide, by decide, by decide⟩
  intro lp sig
  cases lp with
  | none => simp [signalLostCond]
  | some p =>
    simp only [signalLostCond, Bool.and_eq_true, decide_eq_true_eq, Option.some.injEq]
    constructor
    · rintro ⟨hlt, hnz, h20⟩
      exact ⟨p, rfl, h20, hlt⟩
    · rintro ⟨q, hq, h20, hlt⟩
      cases hq
      exact ⟨hlt, by omega, h20⟩
